import Mathlib

set_option autoImplicit false

/-
Verification of the lazy-loading user-entity model of python-mal
(`myanimelist/user.py`), shallowly embedded in Lean.

Python values stored in the `user_info` attribute dictionaries are modelled
by the `Value` inductive; an attribute dictionary is an association list with
Python-dict semantics (assignment replaces the value of an existing key in
place, otherwise appends).  HTML fragments are abstracted: each page structure
records, for every field-extraction site of the source, whether the locator
found anything and whether the extraction succeeded, exactly following the
control flow of the corresponding `try`/`except` block.
-/

namespace PythonMal

/-- A Python value as stored in a `user_info` dictionary: `None`, a string,
an int, a parsed profile date (opaque), a dict, or a list. -/
inductive Value where
  | vNone
  | vStr (s : String)
  | vInt (n : Int)
  | vDate (d : Nat)
  | vDict (entries : List (String × Value))
  | vList (items : List Value)

/-- A Python dictionary from attribute names to values. -/
abbrev AttrMap := List (String × Value)

/-- Python dict read: first entry with the given key. -/
def lookupA (m : AttrMap) (k : String) : Option Value :=
  match m with
  | [] => none
  | (k', v) :: rest => if k' = k then some v else lookupA rest k

/-- Python dict read with `None` default (used only where the source
guarantees the key is present). -/
def lookupD (m : AttrMap) (k : String) : Value :=
  (lookupA m k).getD .vNone

/-- Python dict assignment `m[k] = v`: replaces in place if the key exists,
otherwise appends at the end. -/
def insertA (m : AttrMap) (k : String) (v : Value) : AttrMap :=
  match m with
  | [] => [(k, v)]
  | (k', v') :: rest => if k' = k then (k', v) :: rest else (k', v') :: insertA rest k v

/-- Modelled from the spec: `Base.set` of the missing `base` module (only its
callers are in `src/`).  Spec 4.1 describes `set(mapping)` as merging a
mapping of attribute names to values into the entity's state.  The spec's
claim that later calls do not overwrite already-set attributes is
incompatible with `User.load_reviews` in `src/`, whose final
`self.set({'reviews': merged})` must replace the reviews dict already set
from page 0 for the documented merge to take effect; so `set` is modelled as
an unconditional per-key assignment (last write wins), one `setattr` per
mapping entry. -/
def setAttrs (m : AttrMap) (upd : AttrMap) : AttrMap :=
  upd.foldl (fun acc kv => insertA acc kv.1 kv.2) m

/-- Errors raised by the user parsers: `InvalidUserError` or a generic
parse-time exception (`AttributeError`/`IndexError`/`ValueError`/...). -/
inductive PErr where
  | invalidUser
  | parseError
deriving DecidableEq

/-- Python truthiness of a `Value` (`if not user_info[u'gender']`). -/
def isFalsy : Value → Bool
  | .vNone => true
  | .vStr s => s.isEmpty
  | .vInt n => n == 0
  | .vDate _ => false
  | .vDict d => d.isEmpty
  | .vList l => l.isEmpty

/-- Outcome of one extraction attempt (the body of a single-assignment
`try` block): the typed value, or an exception. -/
abbrev Extract (α : Type) := Except Unit α

/-- Whether an extraction attempt succeeded. -/
def exOk {α : Type} : Extract α → Bool
  | .ok _ => true
  | .error _ => false

/-- Whether an optional field's extraction did not raise (absent fields do
not raise; the source leaves them at their default). -/
def optOk {α : Type} : Option (Extract α) → Bool
  | some (.error _) => false
  | _ => true

/-- One `try: user_info[k] = <extract>; except: if not suppress: raise`
block whose body performs a single dict assignment. -/
def tryField (suppress : Bool) (m : AttrMap) (k : String) (r : Extract Value) :
    Except PErr AttrMap :=
  match r with
  | .ok v => .ok (insertA m k v)
  | .error _ => if suppress then .ok m else .error .parseError

/-- One iteration of the sidebar general-fields loop: the key is first set to
`None`; if the field element is present its parse is attempted inside a
`try` block, the parsed value replacing the `None` on success. -/
def tryLoopField (suppress : Bool) (m : AttrMap) (k : String)
    (field : Option (Extract Value)) : Except PErr AttrMap :=
  let m := insertA m k .vNone
  match field with
  | none => .ok m
  | some (.ok v) => .ok (insertA m k v)
  | some (.error _) => if suppress then .ok m else .error .parseError

/-- What one multi-statement `try` block did to its attribute: nothing
(locator absent, no raise), raised before the attribute was assigned, or
assigned `v` to the attribute (with `ok = false` when the block then raised
mid-way, leaving the partially built container in the dict). -/
inductive BlockOutcome where
  | skip
  | failed
  | built (v : Value) (ok : Bool)

/-- Run one multi-statement `try` block: mutations made before a raise
persist in the dict; the raise is swallowed when `suppress` is set,
propagated otherwise. -/
def runBlock (suppress : Bool) (m : AttrMap) (k : String) (b : BlockOutcome) :
    Except PErr AttrMap :=
  match b with
  | .skip => .ok m
  | .failed => if suppress then .ok m else .error .parseError
  | .built v ok =>
      let m := insertA m k v
      if ok then .ok m else if suppress then .ok m else .error .parseError

/-- Whether a block ran to completion without raising. -/
def blockOk : BlockOutcome → Bool
  | .skip => true
  | .failed => false
  | .built _ ok => ok

/-- A statement not guarded by any `try` block: raises in both modes when
its precondition fails (e.g. indexing `status_elts[0]` with no such list). -/
def require (c : Bool) : Except PErr Unit :=
  if c then .ok () else .error .parseError

/-- The sidebar portion of any fetched user page, as consumed by
`User.parse_sidebar`. -/
structure UserPage where
  /-- the `error404` div is present (MAL says the user does not exist) -/
  error404 : Bool
  /-- the `user-profile` info panel is present -/
  userProfile : Bool
  /-- `img` src extraction inside the first `try` (value may be `None`) -/
  picture : Extract Value
  /-- user id extracted from the Blog Feed link -/
  blogFeedId : Extract Value
  /-- the `user-status` `ul` lists `status_elts[0]` and `status_elts[2]` exist -/
  userStatus : Bool
  /-- `Last Online` span and its parsed date, when present -/
  lastOnline : Option (Extract Value)
  /-- `Gender` span and its text, when present -/
  gender : Option (Extract String)
  /-- `Birthday` span and its parsed date, when present -/
  birthday : Option (Extract Value)
  /-- `Location` span and its text, when present -/
  location : Option (Extract String)
  /-- `Joined` span and its parsed date, when present -/
  joinDate : Option (Extract Value)
  /-- `Forum Posts` count -/
  numForumPosts : Extract Value
  /-- `Reviews` count -/
  numReviews : Extract Value
  /-- `Recommendations` count -/
  numRecommendations : Extract Value
  /-- `Blog Posts` count -/
  numBlogPosts : Extract Value
  /-- `Clubs` count -/
  numClubs : Extract Value
  /-- `Also Available at` link text: absent, or extracted outside any `try`
  (a failure here propagates in both modes) -/
  website : Option (Extract String)

/-- The gender default of `parse_sidebar`:
`if not user_info[u'gender']: user_info[u'gender'] = 'Not specified'`. -/
def genderDefault (m : AttrMap) : AttrMap :=
  if isFalsy (lookupD m "gender") then insertA m "gender" (.vStr "Not specified") else m

/-- `User.parse_sidebar`: raises `InvalidUserError` when the page reports a
missing user, then extracts the sidebar attributes with per-field
`try`/`except` semantics; the gender default is applied after the
general-fields loop. -/
def parse_sidebar (s : Bool) (p : UserPage) : Except PErr AttrMap :=
  if p.error404 then .error .invalidUser else
  Except.bind (tryField s [] "picture" (if p.userProfile then p.picture else .error ())) fun m =>
  Except.bind (tryField s m "id" (if p.userProfile then p.blogFeedId else .error ())) fun m =>
  Except.bind (require p.userProfile) fun _ =>
  Except.bind (require p.userStatus) fun _ =>
  Except.bind (tryLoopField s m "last_online" p.lastOnline) fun m =>
  Except.bind (tryLoopField s m "gender" (p.gender.map (fun r => r.map Value.vStr))) fun m =>
  Except.bind (tryLoopField s m "birthday" p.birthday) fun m =>
  Except.bind (tryLoopField s m "location" (p.location.map (fun r => r.map Value.vStr))) fun m =>
  Except.bind (tryLoopField s m "join_date" p.joinDate) fun m =>
  Except.bind (tryField s (genderDefault m) "num_forum_posts" p.numForumPosts) fun m =>
  Except.bind (tryField s m "num_reviews" p.numReviews) fun m =>
  Except.bind (tryField s m "num_recommendations" p.numRecommendations) fun m =>
  Except.bind (tryField s m "num_blog_posts" p.numBlogPosts) fun m =>
  Except.bind (tryField s m "num_clubs" p.numClubs) fun m =>
  match p.website with
  | none => .ok m
  | some (.ok w) => .ok (insertA m "website" (.vStr w))
  | some (.error _) => .error .parseError

/-- A `try` block that builds a dict attribute: the dict entries assembled
before any raise, and whether the block completed. -/
structure DictBlock where
  entries : List (String × Value)
  ok : Bool

/-- A `try` block that builds a list attribute. -/
structure ListBlock where
  items : List Value
  ok : Bool

/-- The two per-medium halves of the `statistics` section of a profile page
(`div#statistics` with its `stats anime` / `stats manga` children). -/
structure StatsSection where
  anime : DictBlock
  manga : DictBlock

/-- The four favorites sub-sections (`favorites_section[0..3]`): `none`
models an `IndexError` raised before the attribute was assigned. -/
structure FavoritesSection where
  anime : Option ListBlock
  manga : Option ListBlock
  characters : Option DictBlock
  people : Option ListBlock

/-- The main-content area of a profile page, as consumed by `User.parse`. -/
structure ProfilePage where
  sidebar : UserPage
  /-- `All Comments` count -/
  numComments : Extract Value
  /-- the `user-favorites` div, when present -/
  favorites : Option FavoritesSection
  /-- the `Last List Updates` block -/
  lastListUpdates : BlockOutcome
  /-- the `div#statistics` tag, when present (`stats_tag`) -/
  statistics : Option StatsSection
  /-- the about block (defaults to the empty string when the header is absent) -/
  about : Extract Value

/-- Outcome of an optional favorites sub-section. -/
def favListOutcome : Option ListBlock → BlockOutcome
  | none => .failed
  | some b => .built (.vList b.items) b.ok

/-- Outcome of an optional favorites dict sub-section. -/
def favDictOutcome : Option DictBlock → BlockOutcome
  | none => .failed
  | some b => .built (.vDict b.entries) b.ok

/-- Outcome of the anime/manga stats block: when `div#statistics` is absent
the block raises before `user_info['anime_stats']` is assigned; when present
the empty dict is assigned first and then filled in. -/
def statsOutcome (stats : Option StatsSection) (pick : StatsSection → DictBlock) :
    BlockOutcome :=
  match stats with
  | none => .failed
  | some st => .built (.vDict (pick st).entries) (pick st).ok

/-- The `if favorites_tag:` block of `User.parse`: skipped entirely when the
`user-favorites` div is absent, otherwise four `try` blocks in source
order. -/
def parseFavorites (s : Bool) (m : AttrMap) (fav : Option FavoritesSection) :
    Except PErr AttrMap :=
  match fav with
  | none => .ok m
  | some f =>
      Except.bind (runBlock s m "favorite_anime" (favListOutcome f.anime)) fun m =>
      Except.bind (runBlock s m "favorite_manga" (favListOutcome f.manga)) fun m =>
      Except.bind (runBlock s m "favorite_characters" (favDictOutcome f.characters)) fun m =>
      runBlock s m "favorite_people" (favListOutcome f.people)

/-- `User.parse`: sidebar first, then the main-content blocks in source
order (comments count, favorites, last list updates, anime stats, manga
stats, about). -/
def parse (s : Bool) (p : ProfilePage) : Except PErr AttrMap :=
  Except.bind (parse_sidebar s p.sidebar) fun m =>
  Except.bind (tryField s m "num_comments" p.numComments) fun m =>
  Except.bind (parseFavorites s m p.favorites) fun m =>
  Except.bind (runBlock s m "last_list_updates" p.lastListUpdates) fun m =>
  Except.bind (runBlock s m "anime_stats" (statsOutcome p.statistics StatsSection.anime)) fun m =>
  Except.bind (runBlock s m "manga_stats" (statsOutcome p.statistics StatsSection.manga)) fun m =>
  tryField s m "about" p.about

/-- A reviews-listing page, as consumed by `User.parse_reviews`. -/
structure ReviewsPage where
  sidebar : UserPage
  /-- the `#content > table > tr > td[1]` navigation succeeds (outside any
  `try`: a failure propagates in both modes) -/
  contentCol : Bool
  /-- the reviews block: `user_info['reviews'] = {}` is its first statement,
  so the attribute is always assigned before any possible raise -/
  reviews : DictBlock

/-- `User.parse_reviews`. -/
def parse_reviews (s : Bool) (p : ReviewsPage) : Except PErr AttrMap :=
  Except.bind (parse_sidebar s p.sidebar) fun m =>
  Except.bind (require p.contentCol) fun _ =>
  runBlock s m "reviews" (.built (.vDict p.reviews.entries) p.reviews.ok)

/-- A recommendations page, as consumed by `User.parse_recommendations`. -/
structure RecommendationsPage where
  sidebar : UserPage
  contentCol : Bool
  /-- `none` when no recommendation rows are found (the attribute is then
  never assigned) -/
  recommendations : Option DictBlock

/-- `User.parse_recommendations`. -/
def parse_recommendations (s : Bool) (p : RecommendationsPage) : Except PErr AttrMap :=
  Except.bind (parse_sidebar s p.sidebar) fun m =>
  Except.bind (require p.contentCol) fun _ =>
  runBlock s m "recommendations"
    (match p.recommendations with
     | none => .skip
     | some b => .built (.vDict b.entries) b.ok)

/-- A clubs page, as consumed by `User.parse_clubs`. -/
structure ClubsPage where
  sidebar : UserPage
  contentCol : Bool
  /-- `user_info['clubs'] = []` is the block's first statement -/
  clubs : ListBlock

/-- `User.parse_clubs`. -/
def parse_clubs (s : Bool) (p : ClubsPage) : Except PErr AttrMap :=
  Except.bind (parse_sidebar s p.sidebar) fun m =>
  Except.bind (require p.contentCol) fun _ =>
  runBlock s m "clubs" (.built (.vList p.clubs.items) p.clubs.ok)

/-- A friends page, as consumed by `User.parse_friends`. -/
structure FriendsPage where
  sidebar : UserPage
  contentCol : Bool
  /-- `user_info['friends'] = {}` is the block's first statement -/
  friends : DictBlock

/-- `User.parse_friends`. -/
def parse_friends (s : Bool) (p : FriendsPage) : Except PErr AttrMap :=
  Except.bind (parse_sidebar s p.sidebar) fun m =>
  Except.bind (require p.contentCol) fun _ =>
  runBlock s m "friends" (.built (.vDict p.friends.entries) p.friends.ok)

/-- The attribute slots initialised to `None` by `User.__init__`
(lines 63-87 of `user.py`). -/
def userAttributes : List String :=
  ["picture", "favorite_anime", "favorite_manga", "favorite_characters",
   "favorite_people", "last_online", "gender", "birthday", "location",
   "website", "join_date", "num_comments", "num_forum_posts", "num_reviews",
   "num_recommendations", "num_blog_posts", "num_clubs", "last_list_updates",
   "about", "anime_stats", "manga_stats", "reviews", "recommendations",
   "clubs", "friends"]

/-- A constructed `User` object: its natural key and its attribute slots. -/
structure UserObj where
  username : String
  attrs : AttrMap

/-- The username argument passed to `User.__init__`: either not a unicode
string at all, or a unicode string. -/
inductive UsernameArg where
  | nonUnicode
  | unicode (s : String)

/-- The attribute state right after `User.__init__`: every slot `None`. -/
def initialAttrs : AttrMap :=
  userAttributes.map (fun a => (a, Value.vNone))

/-- `User.__init__`: raises `InvalidUserError` unless the username is a
unicode string of length at least 1; otherwise every attribute starts
unset. -/
def User_init (username : UsernameArg) : Except PErr UserObj :=
  match username with
  | .nonUnicode => .error .invalidUser
  | .unicode s =>
      if s.length < 1 then .error .invalidUser
      else .ok { username := s, attrs := initialAttrs }

/-- `User.load`: `self.set(self.parse(...))`; when `parse` raises, `set` is
never reached and the attribute state is untouched. -/
def load (u : UserObj) (s : Bool) (p : ProfilePage) : UserObj × Option PErr :=
  match parse s p with
  | .error e => (u, some e)
  | .ok m => ({ u with attrs := setAttrs u.attrs m }, none)

/-- The merge step of `User.load_reviews`:
`{k: v for d in review_collection for k, v in d.iteritems()}` — a fresh dict
assigned to in iteration order, so a later page's entry replaces an earlier
page's entry for the same key. -/
def mergeReviews (coll : List (List (String × Value))) : List (String × Value) :=
  coll.foldl (fun acc d => d.foldl (fun a kv => insertA a kv.1 kv.2) acc) []

/-- The `while True` loop of `User.load_reviews`, with explicit fuel (the
source loop has no bound; `Except.ok none` models running out of fuel).
Each iteration fetches page `page`, parses it, applies the whole parse
result to the entity on page 0 only, breaks on an empty reviews dict, and
otherwise collects the page's reviews dict. -/
def load_reviews_go (s : Bool) (pages : Nat → ReviewsPage) :
    Nat → Nat → List (List (String × Value)) → UserObj → Nat →
    Except PErr (Option (UserObj × Nat))
  | 0, _, _, _, _ => .ok none
  | fuel + 1, page, coll, u, fetches =>
      let fetches := fetches + 1
      match parse_reviews s (pages page) with
      | .error e => .error e
      | .ok parseResult =>
          let u := if page = 0 then { u with attrs := setAttrs u.attrs parseResult } else u
          match lookupA parseResult "reviews" with
          | some (.vDict revs) =>
              if revs.length = 0 then
                .ok (some
                  ({ u with attrs := setAttrs u.attrs [("reviews", .vDict (mergeReviews coll))] },
                   fetches))
              else
                load_reviews_go s pages fuel (page + 1) (coll ++ [revs]) u fetches
          | _ => .error .parseError

/-- `User.load_reviews`: pages are fetched for `p = 0, 1, 2, ...` until a
page parses to zero review entries; the merged reviews dict is then set. -/
def load_reviews (s : Bool) (pages : Nat → ReviewsPage) (fuel : Nat) (u : UserObj) :
    Except PErr (Option (UserObj × Nat)) :=
  load_reviews_go s pages fuel 0 [] u 0

/-- The loader method backing each attribute, from the `@loadable(...)`
decorations of `user.py`: `reviews`, `recommendations`, `clubs` and
`friends` have their own loaders; every other attribute is backed by
`load`. -/
def loaderOf (attr : String) : String :=
  if attr = "reviews" then "load_reviews"
  else if attr = "recommendations" then "load_recommendations"
  else if attr = "clubs" then "load_clubs"
  else if attr = "friends" then "load_friends"
  else "load"

/-- Modelled from the spec: the lazy per-group fetch cache of the missing
`base` module's `loadable` decorator (`src/` holds only its call sites).
Spec 3: "reading any attribute in a group triggers at most one
fetch-and-parse cycle for that group over the entity's lifetime, unless the
caller explicitly forces a reload".  The entity tracks which groups have
been loaded and a log of the fetches performed. -/
structure LazyEntity where
  loadedGroups : List String
  fetches : List String
  attrs : AttrMap

/-- Modelled from the spec: reading an attribute through its `loadable`
property.  If the attribute's group is already loaded the cached value is
returned with no fetch; otherwise the group's page is fetched once, parsed
(`parseOf` gives the parsed mapping per group), batch-applied, and the
now-set value returned. -/
def readAttr (parseOf : String → AttrMap) (e : LazyEntity) (a : String) :
    Value × LazyEntity :=
  if loaderOf a ∈ e.loadedGroups then (lookupD e.attrs a, e)
  else
    (lookupD (setAttrs e.attrs (parseOf (loaderOf a))) a,
     { loadedGroups := loaderOf a :: e.loadedGroups
       fetches := e.fetches ++ [loaderOf a]
       attrs := setAttrs e.attrs (parseOf (loaderOf a)) })

/-- The attribute keys that `parse_sidebar` may write. -/
def sidebarKeys : List String :=
  ["picture", "id", "last_online", "gender", "birthday", "location", "join_date",
   "num_forum_posts", "num_reviews", "num_recommendations", "num_blog_posts",
   "num_clubs", "website"]

/-- All sidebar extraction sites succeeded (what strict mode demands). -/
def sidebarClean (p : UserPage) : Bool :=
  !p.error404 && p.userProfile && p.userStatus &&
  exOk p.picture && exOk p.blogFeedId &&
  optOk p.lastOnline && optOk p.gender && optOk p.birthday &&
  optOk p.location && optOk p.joinDate &&
  exOk p.numForumPosts && exOk p.numReviews && exOk p.numRecommendations &&
  exOk p.numBlogPosts && exOk p.numClubs && optOk p.website

/-- The attribute keys written by the main-content parsers (never by
`parse_sidebar`). -/
def contentKeys : List String :=
  ["num_comments", "favorite_anime", "favorite_manga", "favorite_characters",
   "favorite_people", "last_list_updates", "anime_stats", "manga_stats", "about",
   "reviews", "recommendations", "clubs", "friends"]

/-- All four favorites `try` blocks completed (vacuously when the
favorites div is absent). -/
def favoritesClean : Option FavoritesSection → Bool
  | none => true
  | some f =>
      blockOk (favListOutcome f.anime) && blockOk (favListOutcome f.manga) &&
      blockOk (favDictOutcome f.characters) && blockOk (favListOutcome f.people)

/-- All extraction sites of `User.parse` succeeded (what strict mode
demands for the whole profile group load to go through). -/
def profileClean (p : ProfilePage) : Bool :=
  sidebarClean p.sidebar && exOk p.numComments && favoritesClean p.favorites &&
  blockOk p.lastListUpdates &&
  blockOk (statsOutcome p.statistics StatsSection.anime) &&
  blockOk (statsOutcome p.statistics StatsSection.manga) && exOk p.about

/-- The final statement of `User.load_reviews`:
`self.set({'reviews': <merged dict>})`. -/
def setReviews (u : UserObj) (d : List (String × Value)) : UserObj :=
  { u with attrs := setAttrs u.attrs [("reviews", .vDict d)] }

/-- The review dicts of pages `page, page+1, ..., page+r-1`, in page order
(the contents of `review_collection` when the loop breaks). -/
def pagesFrom (revs : Nat → List (String × Value)) (page : Nat) : Nat → List (List (String × Value))
  | 0 => []
  | r + 1 => revs page :: pagesFrom revs (page + 1) r

/-- A well-formed sidebar with every field present, used as concrete test
data. -/
def demoSidebar : UserPage :=
  { error404 := false
    userProfile := true
    picture := .ok (.vStr "http://cdn.example/pic.jpg")
    blogFeedId := .ok (.vInt 7)
    userStatus := true
    lastOnline := some (.ok (.vDate 1))
    gender := some (.ok "Male")
    birthday := none
    location := some (.ok "here")
    joinDate := some (.ok (.vDate 2))
    numForumPosts := .ok (.vInt 1)
    numReviews := .ok (.vInt 2)
    numRecommendations := .ok (.vInt 3)
    numBlogPosts := .ok (.vInt 4)
    numClubs := .ok (.vInt 5)
    website := none }

/-- A freshly constructed user object. -/
def demoUser : UserObj :=
  { username := "satou", attrs := initialAttrs }

/-- A reviews page around the demo sidebar with the given reviews dict. -/
def demoReviewsPage (d : List (String × Value)) : ReviewsPage :=
  { sidebar := demoSidebar, contentCol := true, reviews := { entries := d, ok := true } }

/-- A document accessor stub: two non-empty review pages, then empty pages. -/
def demoPages : Nat → ReviewsPage := fun p =>
  if p = 0 then demoReviewsPage [("media1", .vStr "review1"), ("media2", .vStr "review2")]
  else if p = 1 then demoReviewsPage [("media3", .vStr "review3")]
  else demoReviewsPage []

/-- The parse results of the demo review pages. -/
def demoRes : Nat → AttrMap := fun p =>
  match parse_reviews true (demoPages p) with
  | .ok m => m
  | .error _ => []

/-- The review dicts of the demo review pages. -/
def demoRevs : Nat → List (String × Value) := fun p =>
  if p = 0 then [("media1", .vStr "review1"), ("media2", .vStr "review2")]
  else if p = 1 then [("media3", .vStr "review3")]
  else []

/-- A document accessor stub whose pages 0 and 1 both carry an entry for the
same media key. -/
def dupPages : Nat → ReviewsPage := fun p =>
  if p = 0 then demoReviewsPage [("media1", .vStr "first")]
  else if p = 1 then demoReviewsPage [("media1", .vStr "second")]
  else demoReviewsPage []

/-- A profile page whose statistics section is absent. -/
def demoProfileNoStats : ProfilePage :=
  { sidebar := demoSidebar
    numComments := .ok (.vInt 12)
    favorites := none
    lastListUpdates := .skip
    statistics := none
    about := .ok (.vStr "about me") }

/-- A complete statistics section. -/
def demoStats : StatsSection :=
  { anime := { entries := [("Mean Score", .vInt 8)], ok := true }
    manga := { entries := [("Mean Score", .vInt 7)], ok := true } }

/-- A profile page whose about fragment is malformed, everything else
clean. -/
def demoProfileBadAbout : ProfilePage :=
  { sidebar := demoSidebar
    numComments := .ok (.vInt 12)
    favorites := none
    lastListUpdates := .skip
    statistics := some demoStats
    about := .error () }

/-- The demo sidebar with the page reporting a missing user. -/
def goneSidebar : UserPage :=
  { demoSidebar with error404 := true }

/-- The five demo page kinds for a missing user. -/
def goneProfile : ProfilePage :=
  { demoProfileNoStats with sidebar := goneSidebar }

def goneReviews : ReviewsPage :=
  { sidebar := goneSidebar, contentCol := true, reviews := { entries := [], ok := true } }

def goneRecommendations : RecommendationsPage :=
  { sidebar := goneSidebar, contentCol := true, recommendations := none }

def goneClubs : ClubsPage :=
  { sidebar := goneSidebar, contentCol := true, clubs := { items := [], ok := true } }

def goneFriends : FriendsPage :=
  { sidebar := goneSidebar, contentCol := true, friends := { entries := [], ok := true } }

/-- The demo sidebar with no Gender field on the page. -/
def demoSidebarNoGender : UserPage :=
  { demoSidebar with gender := none }

/-- The group parse results used by the C1 witness. -/
def demoParseOf : String → AttrMap := fun g =>
  if g = "load" then [("picture", .vStr "http://cdn.example/pic.jpg"), ("gender", .vStr "Male")]
  else [("reviews", .vDict [])]

/-- A fresh lazy entity with nothing loaded. -/
def demoLazy : LazyEntity :=
  { loadedGroups := [], fetches := [], attrs := initialAttrs }

/-- The parse result of the demo no-statistics profile page. -/
def demoParsed : AttrMap :=
  match parse true demoProfileNoStats with
  | .ok m => m
  | .error _ => []

/-- The sidebar mapping parsed from the demo page without a Gender field. -/
def demoSidebarNGParsed : AttrMap :=
  match parse_sidebar true demoSidebarNoGender with
  | .ok m => m
  | .error _ => []

@[simp] theorem exbind_ok {α β : Type} (a : α) (f : α → Except PErr β) :
    Except.bind (Except.ok a) f = f a := rfl

@[simp] theorem exbind_err {α β : Type} (e : PErr) (f : α → Except PErr β) :
    Except.bind (Except.error e) f = Except.error e := rfl

theorem lookupA_insertA (m : AttrMap) (k k' : String) (v : Value) :
    lookupA (insertA m k v) k' = if k = k' then some v else lookupA m k' := by
  induction m with
  | nil => simp [insertA, lookupA]
  | cons hd tl ih =>
      obtain ⟨k0, v0⟩ := hd
      by_cases h0 : k0 = k
      · subst h0
        by_cases h1 : k0 = k' <;> simp [insertA, lookupA, h1]
      · by_cases h1 : k0 = k'
        · subst h1
          have : ¬ k = k0 := fun h => h0 h.symm
          simp [insertA, lookupA, h0, this]
        · simp [insertA, lookupA, h0, h1, ih]

theorem lookupA_insertA_same (m : AttrMap) (k : String) (v : Value) :
    lookupA (insertA m k v) k = some v := by
  simp [lookupA_insertA]

theorem lookupA_insertA_ne (m : AttrMap) (k k' : String) (v : Value) (h : k' ≠ k) :
    lookupA (insertA m k v) k' = lookupA m k' := by
  rw [lookupA_insertA, if_neg (fun hh => h hh.symm)]

@[simp] theorem setAttrs_nil (m : AttrMap) : setAttrs m [] = m := rfl

theorem setAttrs_cons (m : AttrMap) (k : String) (v : Value) (rest : AttrMap) :
    setAttrs m ((k, v) :: rest) = setAttrs (insertA m k v) rest := rfl

theorem lookupA_setAttrs_single (m : AttrMap) (k k' : String) (v : Value) :
    lookupA (setAttrs m [(k, v)]) k' = if k = k' then some v else lookupA m k' := by
  rw [setAttrs_cons, setAttrs_nil, lookupA_insertA]

@[simp] theorem require_true : require true = .ok () := rfl

@[simp] theorem require_false : require false = .error .parseError := rfl

theorem require_ok {c : Bool} {x : Unit} (h : require c = .ok x) : c = true := by
  cases c
  · simp [require] at h
  · rfl

@[simp] theorem tryField_okv (s : Bool) (m : AttrMap) (k : String) (v : Value) :
    tryField s m k (.ok v) = .ok (insertA m k v) := rfl

@[simp] theorem tryField_perm_err (m : AttrMap) (k : String) (e : Unit) :
    tryField true m k (.error e) = .ok m := rfl

@[simp] theorem tryField_strict_err (m : AttrMap) (k : String) (e : Unit) :
    tryField false m k (.error e) = .error .parseError := rfl

theorem tryField_perm_exists (m : AttrMap) (k : String) (r : Extract Value) :
    ∃ m', tryField true m k r = .ok m' := by
  cases r <;> exact ⟨_, rfl⟩

theorem tryField_pres {s : Bool} {m m' : AttrMap} {k : String} {r : Extract Value}
    (h : tryField s m k r = .ok m') {k' : String} (hk : k' ≠ k) :
    lookupA m' k' = lookupA m k' := by
  cases r with
  | ok v =>
      simp only [tryField_okv, Except.ok.injEq] at h
      subst h
      exact lookupA_insertA_ne m k k' v hk
  | error e =>
      cases s
      · simp at h
      · simp only [tryField_perm_err, Except.ok.injEq] at h
        subst h; rfl

theorem tryField_strict_ok {m m' : AttrMap} {k : String} {r : Extract Value}
    (h : tryField false m k r = .ok m') : exOk r = true := by
  cases r with
  | ok v => rfl
  | error e => simp at h

@[simp] theorem tryLoopField_none (s : Bool) (m : AttrMap) (k : String) :
    tryLoopField s m k none = .ok (insertA m k .vNone) := rfl

@[simp] theorem tryLoopField_okv (s : Bool) (m : AttrMap) (k : String) (v : Value) :
    tryLoopField s m k (some (.ok v)) = .ok (insertA (insertA m k .vNone) k v) := rfl

@[simp] theorem tryLoopField_perm_err (m : AttrMap) (k : String) (e : Unit) :
    tryLoopField true m k (some (.error e)) = .ok (insertA m k .vNone) := rfl

@[simp] theorem tryLoopField_strict_err (m : AttrMap) (k : String) (e : Unit) :
    tryLoopField false m k (some (.error e)) = .error .parseError := rfl

theorem tryLoopField_perm_exists (m : AttrMap) (k : String) (f : Option (Extract Value)) :
    ∃ m', tryLoopField true m k f = .ok m' := by
  match f with
  | none => exact ⟨_, rfl⟩
  | some (.ok v) => exact ⟨_, rfl⟩
  | some (.error e) => exact ⟨_, rfl⟩

theorem tryLoopField_pres {s : Bool} {m m' : AttrMap} {k : String}
    {f : Option (Extract Value)} (h : tryLoopField s m k f = .ok m')
    {k' : String} (hk : k' ≠ k) : lookupA m' k' = lookupA m k' := by
  match f with
  | none =>
      simp only [tryLoopField_none, Except.ok.injEq] at h
      subst h; exact lookupA_insertA_ne m k k' _ hk
  | some (.ok v) =>
      simp only [tryLoopField_okv, Except.ok.injEq] at h
      subst h
      rw [lookupA_insertA_ne _ k k' _ hk, lookupA_insertA_ne m k k' _ hk]
  | some (.error e) =>
      cases s
      · simp at h
      · simp only [tryLoopField_perm_err, Except.ok.injEq] at h
        subst h; exact lookupA_insertA_ne m k k' _ hk

theorem tryLoopField_strict_ok {m m' : AttrMap} {k : String}
    {f : Option (Extract Value)} (h : tryLoopField false m k f = .ok m') :
    optOk f = true := by
  match f with
  | none => rfl
  | some (.ok v) => rfl
  | some (.error e) => simp at h

@[simp] theorem runBlock_skip (s : Bool) (m : AttrMap) (k : String) :
    runBlock s m k .skip = .ok m := rfl

@[simp] theorem runBlock_perm_failed (m : AttrMap) (k : String) :
    runBlock true m k .failed = .ok m := rfl

@[simp] theorem runBlock_strict_failed (m : AttrMap) (k : String) :
    runBlock false m k .failed = .error .parseError := rfl

@[simp] theorem runBlock_built_ok (s : Bool) (m : AttrMap) (k : String) (v : Value) :
    runBlock s m k (.built v true) = .ok (insertA m k v) := rfl

@[simp] theorem runBlock_perm_built_fail (m : AttrMap) (k : String) (v : Value) :
    runBlock true m k (.built v false) = .ok (insertA m k v) := rfl

@[simp] theorem runBlock_strict_built_fail (m : AttrMap) (k : String) (v : Value) :
    runBlock false m k (.built v false) = .error .parseError := rfl

theorem runBlock_perm_exists (m : AttrMap) (k : String) (b : BlockOutcome) :
    ∃ m', runBlock true m k b = .ok m' := by
  match b with
  | .skip => exact ⟨_, rfl⟩
  | .failed => exact ⟨_, rfl⟩
  | .built v ok => cases ok <;> exact ⟨_, rfl⟩

theorem runBlock_pres {s : Bool} {m m' : AttrMap} {k : String} {b : BlockOutcome}
    (h : runBlock s m k b = .ok m') {k' : String} (hk : k' ≠ k) :
    lookupA m' k' = lookupA m k' := by
  match b with
  | .skip =>
      simp only [runBlock_skip, Except.ok.injEq] at h
      subst h; rfl
  | .failed =>
      cases s
      · simp at h
      · simp only [runBlock_perm_failed, Except.ok.injEq] at h
        subst h; rfl
  | .built v ok =>
      cases ok
      · cases s
        · simp at h
        · simp only [runBlock_perm_built_fail, Except.ok.injEq] at h
          subst h; exact lookupA_insertA_ne m k k' _ hk
      · simp only [runBlock_built_ok, Except.ok.injEq] at h
        subst h; exact lookupA_insertA_ne m k k' _ hk

theorem runBlock_strict_ok {m m' : AttrMap} {k : String} {b : BlockOutcome}
    (h : runBlock false m k b = .ok m') : blockOk b = true := by
  match b with
  | .skip => rfl
  | .failed => simp at h
  | .built v ok => cases ok
                   · simp at h
                   · rfl

theorem exbind_ok_inv {α β : Type} {e : Except PErr α} {f : α → Except PErr β} {b : β}
    (h : Except.bind e f = .ok b) : ∃ a, e = .ok a ∧ f a = .ok b := by
  cases e with
  | error e' => simp at h
  | ok a => exact ⟨a, rfl, h⟩

theorem optOk_map {o : Option (Extract String)} :
    optOk (o.map (fun r => r.map Value.vStr)) = optOk o := by
  match o with
  | none => rfl
  | some (.ok w) => rfl
  | some (.error e) => rfl

theorem not_mem_ne {k k0 : String} {l : List String} (hk : ¬ k ∈ l) (h0 : k0 ∈ l) :
    k ≠ k0 :=
  fun h => hk (h ▸ h0)

theorem genderDefault_gender (m : AttrMap) :
    ∃ g, lookupA (genderDefault m) "gender" = some g ∧ isFalsy g = false ∧
      (isFalsy (lookupD m "gender") = true → g = .vStr "Not specified") := by
  unfold genderDefault
  cases hg : isFalsy (lookupD m "gender") with
  | false =>
      cases hl : lookupA m "gender" with
      | none =>
          exfalso
          rw [lookupD, hl] at hg
          simp [isFalsy] at hg
      | some g =>
          refine ⟨g, by simp [hl], ?_, fun hh => by cases hh⟩
          rw [lookupD, hl] at hg
          simpa using hg
  | true =>
      exact ⟨.vStr "Not specified", by simp [lookupA_insertA_same], by decide,
             fun _ => rfl⟩

theorem genderDefault_pres (m : AttrMap) {k : String} (hk : k ≠ "gender") :
    lookupA (genderDefault m) k = lookupA m k := by
  unfold genderDefault
  cases isFalsy (lookupD m "gender")
  · rfl
  · simp only [if_true]
    exact lookupA_insertA_ne m _ k _ hk

theorem parse_sidebar_error404 {p : UserPage} (h : p.error404 = true) (s : Bool) :
    parse_sidebar s p = .error .invalidUser := by
  rw [parse_sidebar, h, if_pos rfl]

theorem parse_sidebar_perm_ok (p : UserPage) (h404 : p.error404 = false)
    (hup : p.userProfile = true) (hus : p.userStatus = true)
    (hweb : optOk p.website = true) :
    ∃ m, parse_sidebar true p = .ok m := by
  rw [parse_sidebar, h404, if_neg Bool.false_ne_true]
  obtain ⟨m1, h1⟩ := tryField_perm_exists [] "picture" (if p.userProfile then p.picture else .error ())
  rw [h1, exbind_ok]
  obtain ⟨m2, h2⟩ := tryField_perm_exists m1 "id" (if p.userProfile then p.blogFeedId else .error ())
  rw [h2, exbind_ok, hup, require_true, exbind_ok, hus, require_true, exbind_ok]
  obtain ⟨m3, h3⟩ := tryLoopField_perm_exists m2 "last_online" p.lastOnline
  rw [h3, exbind_ok]
  obtain ⟨m4, h4⟩ := tryLoopField_perm_exists m3 "gender" (p.gender.map (fun r => r.map Value.vStr))
  rw [h4, exbind_ok]
  obtain ⟨m5, h5⟩ := tryLoopField_perm_exists m4 "birthday" p.birthday
  rw [h5, exbind_ok]
  obtain ⟨m6, h6⟩ := tryLoopField_perm_exists m5 "location" (p.location.map (fun r => r.map Value.vStr))
  rw [h6, exbind_ok]
  obtain ⟨m7, h7⟩ := tryLoopField_perm_exists m6 "join_date" p.joinDate
  rw [h7, exbind_ok]
  obtain ⟨m8, h8⟩ := tryField_perm_exists (genderDefault m7) "num_forum_posts" p.numForumPosts
  rw [h8, exbind_ok]
  obtain ⟨m9, h9⟩ := tryField_perm_exists m8 "num_reviews" p.numReviews
  rw [h9, exbind_ok]
  obtain ⟨m10, h10⟩ := tryField_perm_exists m9 "num_recommendations" p.numRecommendations
  rw [h10, exbind_ok]
  obtain ⟨m11, h11⟩ := tryField_perm_exists m10 "num_blog_posts" p.numBlogPosts
  rw [h11, exbind_ok]
  obtain ⟨m12, h12⟩ := tryField_perm_exists m11 "num_clubs" p.numClubs
  rw [h12, exbind_ok]
  match hw : p.website with
  | none => exact ⟨m12, rfl⟩
  | some (.ok w) => exact ⟨_, rfl⟩
  | some (.error e) => rw [hw] at hweb; simp [optOk] at hweb

theorem parse_sidebar_ok_spec {s : Bool} {p : UserPage} {m : AttrMap}
    (h : parse_sidebar s p = .ok m) :
    p.error404 = false ∧ p.userProfile = true ∧ p.userStatus = true ∧
    (∃ g, lookupA m "gender" = some g ∧ isFalsy g = false ∧
      ((p.gender = none ∨ p.gender = some (.ok "")) → g = .vStr "Not specified")) ∧
    (∀ v, p.joinDate = some (.ok v) → lookupA m "join_date" = some v) ∧
    (∀ t, p.location = some (.ok t) → lookupA m "location" = some (.vStr t)) ∧
    (∀ k, ¬ k ∈ sidebarKeys → lookupA m k = none) ∧
    (s = false → sidebarClean p = true) := by
  rw [parse_sidebar] at h
  cases he : p.error404 with
  | true => rw [he, if_pos rfl] at h; cases h
  | false =>
  rw [he, if_neg Bool.false_ne_true] at h
  obtain ⟨m1, h1, h⟩ := exbind_ok_inv h
  obtain ⟨m2, h2, h⟩ := exbind_ok_inv h
  obtain ⟨u1, hru1, h⟩ := exbind_ok_inv h
  obtain ⟨u2, hru2, h⟩ := exbind_ok_inv h
  have hup : p.userProfile = true := require_ok hru1
  have hus : p.userStatus = true := require_ok hru2
  obtain ⟨m3, h3, h⟩ := exbind_ok_inv h
  obtain ⟨m4, h4, h⟩ := exbind_ok_inv h
  obtain ⟨m5, h5, h⟩ := exbind_ok_inv h
  obtain ⟨m6, h6, h⟩ := exbind_ok_inv h
  obtain ⟨m7, h7, h⟩ := exbind_ok_inv h
  obtain ⟨m8, h8, h⟩ := exbind_ok_inv h
  obtain ⟨m9, h9, h⟩ := exbind_ok_inv h
  obtain ⟨m10, h10, h⟩ := exbind_ok_inv h
  obtain ⟨m11, h11, h⟩ := exbind_ok_inv h
  obtain ⟨m12, h12, h⟩ := exbind_ok_inv h
  have hweb : optOk p.website = true ∧ ∀ k, k ≠ "website" → lookupA m k = lookupA m12 k := by
    cases hw : p.website with
    | none =>
        rw [hw] at h
        cases h
        exact ⟨rfl, fun k hk => rfl⟩
    | some r =>
        cases r with
        | ok w =>
            rw [hw] at h
            cases h
            exact ⟨rfl, fun k hk => lookupA_insertA_ne m12 _ k _ hk⟩
        | error e =>
            rw [hw] at h
            cases h
  obtain ⟨hwebok, hfin⟩ := hweb
  have hchain : ∀ k, ¬ k ∈ ["website", "num_clubs", "num_blog_posts",
      "num_recommendations", "num_reviews", "num_forum_posts", "gender"] →
      lookupA m k = lookupA m7 k := by
    intro k hk
    rw [hfin k (not_mem_ne hk (by decide)), tryField_pres h12 (not_mem_ne hk (by decide)),
        tryField_pres h11 (not_mem_ne hk (by decide)),
        tryField_pres h10 (not_mem_ne hk (by decide)),
        tryField_pres h9 (not_mem_ne hk (by decide)),
        tryField_pres h8 (not_mem_ne hk (by decide)),
        genderDefault_pres m7 (not_mem_ne hk (by decide))]
  refine ⟨rfl, hup, hus, ?_, ?_, ?_, ?_, ?_⟩
  · -- gender is always present and non-falsy in the returned mapping
    obtain ⟨g, hg1, hg2, hg3⟩ := genderDefault_gender m7
    have cg : lookupA m "gender" = lookupA (genderDefault m7) "gender" := by
      rw [hfin _ (by decide), tryField_pres h12 (by decide), tryField_pres h11 (by decide),
          tryField_pres h10 (by decide), tryField_pres h9 (by decide),
          tryField_pres h8 (by decide)]
    have c74 : lookupA m7 "gender" = lookupA m4 "gender" := by
      rw [tryLoopField_pres h7 (by decide), tryLoopField_pres h6 (by decide),
          tryLoopField_pres h5 (by decide)]
    refine ⟨g, by rw [cg, hg1], hg2, ?_⟩
    intro hg0
    apply hg3
    cases hg0 with
    | inl hn =>
        rw [hn] at h4
        simp only [Option.map_none'] at h4
        rw [tryLoopField_none] at h4
        cases h4
        rw [lookupD, c74, lookupA_insertA_same]
        rfl
    | inr hemp =>
        rw [hemp] at h4
        simp only [Option.map_some', Except.map] at h4
        rw [tryLoopField_okv] at h4
        cases h4
        rw [lookupD, c74, lookupA_insertA_same]
        decide
  · -- join_date is set from the parsed Joined field
    intro v hv
    rw [hv] at h7
    rw [tryLoopField_okv] at h7
    cases h7
    rw [hchain "join_date" (by decide), lookupA_insertA_same]
  · -- location is set from the Location field text
    intro t ht
    rw [ht] at h6
    simp only [Option.map_some', Except.map] at h6
    rw [tryLoopField_okv] at h6
    cases h6
    rw [hchain "location" (by decide), tryLoopField_pres h7 (by decide),
        lookupA_insertA_same]
  · -- keys outside the sidebar set stay absent
    intro k hk
    rw [hchain k ?later, tryLoopField_pres h7 (not_mem_ne hk (by decide)),
        tryLoopField_pres h6 (not_mem_ne hk (by decide)),
        tryLoopField_pres h5 (not_mem_ne hk (by decide)),
        tryLoopField_pres h4 (not_mem_ne hk (by decide)),
        tryLoopField_pres h3 (not_mem_ne hk (by decide)),
        tryField_pres h2 (not_mem_ne hk (by decide)),
        tryField_pres h1 (not_mem_ne hk (by decide))]
    · rfl
    case later =>
      intro hmem
      apply hk
      simp only [List.mem_cons, List.not_mem_nil, or_false] at hmem
      rcases hmem with rfl | rfl | rfl | rfl | rfl | rfl | rfl <;> decide
  · -- strict mode demands every extraction site succeeded
    intro hs
    subst hs
    have e1 := tryField_strict_ok h1
    have e2 := tryField_strict_ok h2
    rw [hup, if_pos rfl] at e1 e2
    have o3 := tryLoopField_strict_ok h3
    have o4 := tryLoopField_strict_ok h4
    rw [optOk_map] at o4
    have o5 := tryLoopField_strict_ok h5
    have o6 := tryLoopField_strict_ok h6
    rw [optOk_map] at o6
    have o7 := tryLoopField_strict_ok h7
    have e8 := tryField_strict_ok h8
    have e9 := tryField_strict_ok h9
    have e10 := tryField_strict_ok h10
    have e11 := tryField_strict_ok h11
    have e12 := tryField_strict_ok h12
    simp [sidebarClean, he, hup, hus, e1, e2, o3, o4, o5, o6, o7, e8, e9, e10, e11,
          e12, hwebok]

theorem sidebar_content_disjoint : ∀ k ∈ sidebarKeys, ¬ k ∈ contentKeys := by decide

theorem runBlock_failed_ok {s : Bool} {m m' : AttrMap} {k : String}
    (h : runBlock s m k .failed = .ok m') : m' = m := by
  cases s
  · simp at h
  · simp only [runBlock_perm_failed, Except.ok.injEq] at h
    exact h.symm

theorem parseFavorites_perm_exists (m : AttrMap) (fav : Option FavoritesSection) :
    ∃ m', parseFavorites true m fav = .ok m' := by
  cases fav with
  | none => exact ⟨m, rfl⟩
  | some f =>
      rw [parseFavorites]
      obtain ⟨q1, hq1⟩ := runBlock_perm_exists m "favorite_anime" (favListOutcome f.anime)
      rw [hq1, exbind_ok]
      obtain ⟨q2, hq2⟩ := runBlock_perm_exists q1 "favorite_manga" (favListOutcome f.manga)
      rw [hq2, exbind_ok]
      obtain ⟨q3, hq3⟩ := runBlock_perm_exists q2 "favorite_characters" (favDictOutcome f.characters)
      rw [hq3, exbind_ok]
      exact runBlock_perm_exists q3 "favorite_people" (favListOutcome f.people)

theorem parseFavorites_pres {s : Bool} {m m' : AttrMap} {fav : Option FavoritesSection}
    (h : parseFavorites s m fav = .ok m') {k : String}
    (hk : ¬ k ∈ ["favorite_anime", "favorite_manga", "favorite_characters",
                 "favorite_people"]) :
    lookupA m' k = lookupA m k := by
  cases fav with
  | none =>
      rw [parseFavorites] at h
      cases h
      rfl
  | some f =>
      rw [parseFavorites] at h
      obtain ⟨q1, hq1, h⟩ := exbind_ok_inv h
      obtain ⟨q2, hq2, h⟩ := exbind_ok_inv h
      obtain ⟨q3, hq3, h⟩ := exbind_ok_inv h
      rw [runBlock_pres h (not_mem_ne hk (by decide)),
          runBlock_pres hq3 (not_mem_ne hk (by decide)),
          runBlock_pres hq2 (not_mem_ne hk (by decide)),
          runBlock_pres hq1 (not_mem_ne hk (by decide))]

theorem parseFavorites_strict_ok {m m' : AttrMap} {fav : Option FavoritesSection}
    (h : parseFavorites false m fav = .ok m') : favoritesClean fav = true := by
  cases fav with
  | none => rfl
  | some f =>
      rw [parseFavorites] at h
      obtain ⟨q1, hq1, h⟩ := exbind_ok_inv h
      obtain ⟨q2, hq2, h⟩ := exbind_ok_inv h
      obtain ⟨q3, hq3, h⟩ := exbind_ok_inv h
      simp [favoritesClean, runBlock_strict_ok hq1, runBlock_strict_ok hq2,
            runBlock_strict_ok hq3, runBlock_strict_ok h]

theorem parse_ok_spec {s : Bool} {p : ProfilePage} {m : AttrMap}
    (h : parse s p = .ok m) :
    ∃ ms, parse_sidebar s p.sidebar = .ok ms ∧
      (∀ k, k ∈ sidebarKeys → lookupA m k = lookupA ms k) ∧
      (p.statistics = none →
        lookupA m "anime_stats" = lookupA ms "anime_stats" ∧
        lookupA m "manga_stats" = lookupA ms "manga_stats") ∧
      (s = false → profileClean p = true) := by
  rw [parse] at h
  obtain ⟨ms, hs0, h⟩ := exbind_ok_inv h
  obtain ⟨n1, hn1, h⟩ := exbind_ok_inv h
  obtain ⟨n2, hn2, h⟩ := exbind_ok_inv h
  obtain ⟨n3, hn3, h⟩ := exbind_ok_inv h
  obtain ⟨n4, hn4, h⟩ := exbind_ok_inv h
  obtain ⟨n5, hn5, h⟩ := exbind_ok_inv h
  refine ⟨ms, hs0, ?_, ?_, ?_⟩
  · intro k hk
    have hc := sidebar_content_disjoint k hk
    rw [tryField_pres h (not_mem_ne hc (by decide)),
        runBlock_pres hn5 (not_mem_ne hc (by decide)),
        runBlock_pres hn4 (not_mem_ne hc (by decide)),
        runBlock_pres hn3 (not_mem_ne hc (by decide)),
        parseFavorites_pres hn2 ?fk,
        tryField_pres hn1 (not_mem_ne hc (by decide))]
    case fk =>
      intro hmem
      apply hc
      simp only [List.mem_cons, List.not_mem_nil, or_false] at hmem
      rcases hmem with rfl | rfl | rfl | rfl <;> decide
  · intro hnone
    rw [hnone] at hn4 hn5
    have e4 : n4 = n3 := runBlock_failed_ok hn4
    have e5 : n5 = n4 := runBlock_failed_ok hn5
    constructor
    · rw [tryField_pres h (by decide), e5, e4, runBlock_pres hn3 (by decide),
          parseFavorites_pres hn2 (by decide), tryField_pres hn1 (by decide)]
    · rw [tryField_pres h (by decide), e5, e4, runBlock_pres hn3 (by decide),
          parseFavorites_pres hn2 (by decide), tryField_pres hn1 (by decide)]
  · intro hs
    subst hs
    have c1 := tryField_strict_ok hn1
    have c2 := parseFavorites_strict_ok hn2
    have c3 := runBlock_strict_ok hn3
    have c4 := runBlock_strict_ok hn4
    have c5 := runBlock_strict_ok hn5
    have c6 := tryField_strict_ok h
    have csb := (parse_sidebar_ok_spec hs0).2.2.2.2.2.2.2 rfl
    simp [profileClean, csb, c1, c2, c3, c4, c5, c6]

theorem parse_perm_ok (p : ProfilePage) (ms : AttrMap)
    (hs : parse_sidebar true p.sidebar = .ok ms) : ∃ m, parse true p = .ok m := by
  rw [parse, hs, exbind_ok]
  obtain ⟨n1, hn1⟩ := tryField_perm_exists ms "num_comments" p.numComments
  rw [hn1, exbind_ok]
  obtain ⟨n2, hn2⟩ := parseFavorites_perm_exists n1 p.favorites
  rw [hn2, exbind_ok]
  obtain ⟨n3, hn3⟩ := runBlock_perm_exists n2 "last_list_updates" p.lastListUpdates
  rw [hn3, exbind_ok]
  obtain ⟨n4, hn4⟩ := runBlock_perm_exists n3 "anime_stats" (statsOutcome p.statistics StatsSection.anime)
  rw [hn4, exbind_ok]
  obtain ⟨n5, hn5⟩ := runBlock_perm_exists n4 "manga_stats" (statsOutcome p.statistics StatsSection.manga)
  rw [hn5, exbind_ok]
  exact tryField_perm_exists n5 "about" p.about

theorem runBlock_built_lookup {s : Bool} {m m' : AttrMap} {k : String} {v : Value}
    {ok : Bool} (h : runBlock s m k (.built v ok) = .ok m') : lookupA m' k = some v := by
  cases ok
  · cases s
    · simp at h
    · simp only [runBlock_perm_built_fail, Except.ok.injEq] at h
      rw [← h, lookupA_insertA_same]
  · simp only [runBlock_built_ok, Except.ok.injEq] at h
    rw [← h, lookupA_insertA_same]

theorem parse_reviews_ok_spec {s : Bool} {p : ReviewsPage} {m : AttrMap}
    (h : parse_reviews s p = .ok m) :
    ∃ ms, parse_sidebar s p.sidebar = .ok ms ∧
      (∀ k, k ∈ sidebarKeys → lookupA m k = lookupA ms k) ∧
      lookupA m "reviews" = some (.vDict p.reviews.entries) := by
  rw [parse_reviews] at h
  obtain ⟨ms, hs0, h⟩ := exbind_ok_inv h
  obtain ⟨u1, hu1, h⟩ := exbind_ok_inv h
  refine ⟨ms, hs0, fun k hk => ?_, runBlock_built_lookup h⟩
  exact runBlock_pres h (not_mem_ne (sidebar_content_disjoint k hk) (by decide))

theorem parse_recommendations_ok_spec {s : Bool} {p : RecommendationsPage} {m : AttrMap}
    (h : parse_recommendations s p = .ok m) :
    ∃ ms, parse_sidebar s p.sidebar = .ok ms ∧
      ∀ k, k ∈ sidebarKeys → lookupA m k = lookupA ms k := by
  rw [parse_recommendations] at h
  obtain ⟨ms, hs0, h⟩ := exbind_ok_inv h
  obtain ⟨u1, hu1, h⟩ := exbind_ok_inv h
  refine ⟨ms, hs0, fun k hk => ?_⟩
  exact runBlock_pres h (not_mem_ne (sidebar_content_disjoint k hk) (by decide))

theorem parse_clubs_ok_spec {s : Bool} {p : ClubsPage} {m : AttrMap}
    (h : parse_clubs s p = .ok m) :
    ∃ ms, parse_sidebar s p.sidebar = .ok ms ∧
      ∀ k, k ∈ sidebarKeys → lookupA m k = lookupA ms k := by
  rw [parse_clubs] at h
  obtain ⟨ms, hs0, h⟩ := exbind_ok_inv h
  obtain ⟨u1, hu1, h⟩ := exbind_ok_inv h
  refine ⟨ms, hs0, fun k hk => ?_⟩
  exact runBlock_pres h (not_mem_ne (sidebar_content_disjoint k hk) (by decide))

theorem parse_friends_ok_spec {s : Bool} {p : FriendsPage} {m : AttrMap}
    (h : parse_friends s p = .ok m) :
    ∃ ms, parse_sidebar s p.sidebar = .ok ms ∧
      ∀ k, k ∈ sidebarKeys → lookupA m k = lookupA ms k := by
  rw [parse_friends] at h
  obtain ⟨ms, hs0, h⟩ := exbind_ok_inv h
  obtain ⟨u1, hu1, h⟩ := exbind_ok_inv h
  refine ⟨ms, hs0, fun k hk => ?_⟩
  exact runBlock_pres h (not_mem_ne (sidebar_content_disjoint k hk) (by decide))

theorem parse_error404 {p : ProfilePage} (h : p.sidebar.error404 = true) (s : Bool) :
    parse s p = .error .invalidUser := by
  rw [parse, parse_sidebar_error404 h, exbind_err]

theorem parse_reviews_error404 {p : ReviewsPage} (h : p.sidebar.error404 = true)
    (s : Bool) : parse_reviews s p = .error .invalidUser := by
  rw [parse_reviews, parse_sidebar_error404 h, exbind_err]

theorem parse_recommendations_error404 {p : RecommendationsPage}
    (h : p.sidebar.error404 = true) (s : Bool) :
    parse_recommendations s p = .error .invalidUser := by
  rw [parse_recommendations, parse_sidebar_error404 h, exbind_err]

theorem parse_clubs_error404 {p : ClubsPage} (h : p.sidebar.error404 = true)
    (s : Bool) : parse_clubs s p = .error .invalidUser := by
  rw [parse_clubs, parse_sidebar_error404 h, exbind_err]

theorem parse_friends_error404 {p : FriendsPage} (h : p.sidebar.error404 = true)
    (s : Bool) : parse_friends s p = .error .invalidUser := by
  rw [parse_friends, parse_sidebar_error404 h, exbind_err]

theorem lookupA_append (l1 l2 : AttrMap) (k : String) :
    lookupA (l1 ++ l2) k
      = match lookupA l1 k with
        | some v => some v
        | none => lookupA l2 k := by
  induction l1 with
  | nil => simp [lookupA]
  | cons hd tl ih =>
      obtain ⟨k0, v0⟩ := hd
      by_cases h0 : k0 = k <;> simp [lookupA, h0, ih]

theorem lookupA_foldl_insertA (entries : List (String × Value)) (m : AttrMap)
    (k : String) :
    lookupA (entries.foldl (fun a kv => insertA a kv.1 kv.2) m) k
      = match lookupA entries.reverse k with
        | some v => some v
        | none => lookupA m k := by
  induction entries generalizing m with
  | nil => simp [lookupA]
  | cons hd tl ih =>
      obtain ⟨k0, v0⟩ := hd
      rw [List.foldl_cons, ih, List.reverse_cons, lookupA_append]
      cases lookupA tl.reverse k with
      | some v => rfl
      | none =>
          rw [lookupA_insertA]
          by_cases h0 : k0 = k <;> simp [lookupA, h0]

theorem mergeReviews_foldl (coll : List (List (String × Value))) (acc : AttrMap)
    (k : String) :
    lookupA (coll.foldl (fun a d => d.foldl (fun a kv => insertA a kv.1 kv.2) a) acc) k
      = match lookupA (List.flatten coll).reverse k with
        | some v => some v
        | none => lookupA acc k := by
  induction coll generalizing acc with
  | nil => simp [lookupA]
  | cons d tl ih =>
      rw [List.foldl_cons, ih, List.flatten_cons, List.reverse_append, lookupA_append]
      cases lookupA (List.flatten tl).reverse k with
      | some v => rfl
      | none => rw [lookupA_foldl_insertA]

theorem mergeReviews_lookup (coll : List (List (String × Value))) (k : String) :
    lookupA (mergeReviews coll) k = lookupA (List.flatten coll).reverse k := by
  rw [mergeReviews, mergeReviews_foldl]
  cases lookupA (List.flatten coll).reverse k with
  | some v => rfl
  | none => rfl

theorem lookupA_some_mem {l : AttrMap} {k : String} {v : Value}
    (h : lookupA l k = some v) : (k, v) ∈ l := by
  induction l with
  | nil => simp [lookupA] at h
  | cons hd tl ih =>
      obtain ⟨k0, v0⟩ := hd
      rw [lookupA] at h
      by_cases h0 : k0 = k
      · rw [if_pos h0] at h
        cases h
        subst h0
        exact List.mem_cons_self _ _
      · rw [if_neg h0] at h
        exact List.mem_cons_of_mem _ (ih h)

theorem mem_lookupA_isSome {l : AttrMap} {k : String} {v : Value}
    (h : (k, v) ∈ l) : ∃ v', lookupA l k = some v' := by
  induction l with
  | nil => cases h
  | cons hd tl ih =>
      obtain ⟨k0, v0⟩ := hd
      by_cases h0 : k0 = k
      · exact ⟨v0, by rw [lookupA, if_pos h0]⟩
      · rw [List.mem_cons] at h
        rcases h with he | hm
        · exact absurd (congrArg Prod.fst he).symm h0
        · obtain ⟨v', hv⟩ := ih hm
          exact ⟨v', by rw [lookupA, if_neg h0]; exact hv⟩

theorem setReviews_lookup (u : UserObj) (d : List (String × Value)) :
    lookupA (setReviews u d).attrs "reviews" = some (.vDict d) := by
  rw [setReviews]
  show lookupA (setAttrs u.attrs [("reviews", .vDict d)]) "reviews" = _
  rw [lookupA_setAttrs_single, if_pos rfl]

theorem mem_pagesFrom {revs : Nat → List (String × Value)} {page r : Nat}
    {d : List (String × Value)} :
    d ∈ pagesFrom revs page r ↔ ∃ i, i < r ∧ d = revs (page + i) := by
  induction r generalizing page with
  | zero => simp [pagesFrom]
  | succ r ih =>
      rw [pagesFrom, List.mem_cons, ih]
      constructor
      · rintro (rfl | ⟨i, hi, rfl⟩)
        · exact ⟨0, by omega, by rw [Nat.add_zero]⟩
        · exact ⟨i + 1, by omega, by rw [Nat.add_comm i 1, ← Nat.add_assoc]⟩
      · rintro ⟨i, hi, rfl⟩
        match i with
        | 0 => exact Or.inl (by rw [Nat.add_zero])
        | j + 1 =>
            refine Or.inr ⟨j, by omega, ?_⟩
            rw [Nat.add_comm j 1, ← Nat.add_assoc]

theorem load_reviews_go_spec (s : Bool) (pages : Nat → ReviewsPage)
    (res : Nat → AttrMap) (revs : Nat → List (String × Value)) (r : Nat) :
    ∀ (page : Nat) (coll : List (List (String × Value))) (u : UserObj)
      (fetches fuel : Nat),
      1 ≤ page →
      r + 1 ≤ fuel →
      (∀ i, i ≤ r → parse_reviews s (pages (page + i)) = .ok (res (page + i))) →
      (∀ i, i ≤ r → lookupA (res (page + i)) "reviews" = some (.vDict (revs (page + i)))) →
      (∀ i, i < r → (revs (page + i)).length ≠ 0) →
      (revs (page + r)).length = 0 →
      load_reviews_go s pages fuel page coll u fetches
        = .ok (some
            (setReviews u (mergeReviews (coll ++ pagesFrom revs page r)),
             fetches + r + 1)) := by
  induction r with
  | zero =>
      intro page coll u fetches fuel hpage hfuel hok hrev hne hempty
      match fuel, hfuel with
      | fuel + 1, _ =>
        have hok0 : parse_reviews s (pages page) = .ok (res page) := by
          simpa using hok 0 (Nat.le_refl 0)
        have hrev0 : lookupA (res page) "reviews" = some (.vDict (revs page)) := by
          simpa using hrev 0 (Nat.le_refl 0)
        have hempty0 : (revs page).length = 0 := by simpa using hempty
        have hpage0 : ¬ page = 0 := by omega
        simp only [load_reviews_go, hok0, hrev0, hempty0, if_pos, if_neg hpage0,
                   pagesFrom, List.append_nil, Nat.add_zero]
        rfl
  | succ r ih =>
      intro page coll u fetches fuel hpage hfuel hok hrev hne hempty
      match fuel, hfuel with
      | fuel + 1, hfuel =>
        have hok0 : parse_reviews s (pages page) = .ok (res page) := by
          simpa using hok 0 (Nat.zero_le _)
        have hrev0 : lookupA (res page) "reviews" = some (.vDict (revs page)) := by
          simpa using hrev 0 (Nat.zero_le _)
        have hne0 : ¬ (revs page).length = 0 := by simpa using hne 0 (Nat.succ_pos r)
        have hpage0 : ¬ page = 0 := by omega
        have harith : ∀ i, page + 1 + i = page + (i + 1) := by intro i; omega
        rw [show fetches + (r + 1) + 1 = (fetches + 1) + r + 1 by omega]
        have step := ih (page + 1) (coll ++ [revs page]) u (fetches + 1) fuel
          (by omega) (by omega)
          (fun i hi => by rw [harith i]; exact hok (i + 1) (by omega))
          (fun i hi => by rw [harith i]; exact hrev (i + 1) (by omega))
          (fun i hi => by rw [harith i]; exact hne (i + 1) (by omega))
          (by rw [harith r]; exact hempty)
        simp only [load_reviews_go, hok0, hrev0, if_neg hne0, if_neg hpage0]
        rw [step, List.append_assoc]
        rfl

/-- C1: for every User entity and attribute group, the first read of any
attribute in the group performs exactly one fetch-and-parse cycle (the fetch
log grows by exactly that group's loader), and every subsequent read of any
attribute in the same group performs zero additional fetches and returns the
cached value, absent a forced reload. -/
theorem C1_group_fetch_once (parseOf : String → AttrMap) (e : LazyEntity)
    (a b : String) (hg : ¬ loaderOf a ∈ e.loadedGroups)
    (hab : loaderOf b = loaderOf a) :
    (readAttr parseOf e a).2.fetches = e.fetches ++ [loaderOf a] ∧
    readAttr parseOf (readAttr parseOf e a).2 b
      = (lookupD (readAttr parseOf e a).2.attrs b, (readAttr parseOf e a).2) ∧
    (∀ e' : LazyEntity, loaderOf b ∈ e'.loadedGroups →
      readAttr parseOf e' b = (lookupD e'.attrs b, e')) := by
  have hread : readAttr parseOf e a
      = (lookupD (setAttrs e.attrs (parseOf (loaderOf a))) a,
         { loadedGroups := loaderOf a :: e.loadedGroups
           fetches := e.fetches ++ [loaderOf a]
           attrs := setAttrs e.attrs (parseOf (loaderOf a)) }) := by
    rw [readAttr, if_neg hg]
  have hcached : ∀ e' : LazyEntity, loaderOf b ∈ e'.loadedGroups →
      readAttr parseOf e' b = (lookupD e'.attrs b, e') := by
    intro e' he'
    rw [readAttr, if_pos he']
  refine ⟨by rw [hread], ?_, hcached⟩
  apply hcached
  rw [hread, hab]
  exact List.mem_cons_self _ _

/-- C1 witness: reading `picture` on a fresh entity fetches the profile group
once; a following read of `gender` (same group) does not change the entity
and returns the cached value. -/
theorem C1_witness :
    ¬ loaderOf "picture" ∈ demoLazy.loadedGroups ∧
    loaderOf "gender" = loaderOf "picture" ∧
    (readAttr demoParseOf demoLazy "picture").2.fetches
      = demoLazy.fetches ++ [loaderOf "picture"] ∧
    readAttr demoParseOf (readAttr demoParseOf demoLazy "picture").2 "gender"
      = (lookupD (readAttr demoParseOf demoLazy "picture").2.attrs "gender",
         (readAttr demoParseOf demoLazy "picture").2) := by
  have h := C1_group_fetch_once demoParseOf demoLazy "picture" "gender"
    (by decide) rfl
  exact ⟨by decide, rfl, h.1, h.2.1⟩

/-- C2: load_reviews fetches pages 0, 1, 2, ... in sequence, stops at the
first page whose parsed review mapping is empty, and sets the reviews
attribute to the merge of all non-empty pages' review dicts: every entry of
the final mapping comes from some non-empty page, and every key of every
non-empty page appears in the final mapping.  With pages 0..k-1 non-empty
and page k empty, exactly k+1 fetches are issued. -/
theorem C2_load_reviews_pagination (s : Bool) (pages : Nat → ReviewsPage)
    (res : Nat → AttrMap) (revs : Nat → List (String × Value))
    (u : UserObj) (k fuel : Nat)
    (hok : ∀ i, i ≤ k → parse_reviews s (pages i) = .ok (res i))
    (hrev : ∀ i, i ≤ k → lookupA (res i) "reviews" = some (.vDict (revs i)))
    (hne : ∀ i, i < k → (revs i).length ≠ 0)
    (hempty : (revs k).length = 0)
    (hfuel : k + 1 ≤ fuel) :
    ∃ u', load_reviews s pages fuel u = .ok (some (u', k + 1)) ∧
      lookupA u'.attrs "reviews" = some (.vDict (mergeReviews (pagesFrom revs 0 k))) ∧
      (∀ key v, lookupA (mergeReviews (pagesFrom revs 0 k)) key = some v →
        ∃ i, i < k ∧ (key, v) ∈ revs i) ∧
      (∀ i key v, i < k → (key, v) ∈ revs i →
        ∃ v', lookupA (mergeReviews (pagesFrom revs 0 k)) key = some v') := by
  have hun1 : ∀ key v, lookupA (mergeReviews (pagesFrom revs 0 k)) key = some v →
      ∃ i, i < k ∧ (key, v) ∈ revs i := by
    intro key v h
    rw [mergeReviews_lookup] at h
    have hm := lookupA_some_mem h
    rw [List.mem_reverse, List.mem_flatten] at hm
    obtain ⟨d, hd, hkv⟩ := hm
    rw [mem_pagesFrom] at hd
    obtain ⟨i, hi, rfl⟩ := hd
    rw [Nat.zero_add] at hkv
    exact ⟨i, hi, hkv⟩
  have hun2 : ∀ i key v, i < k → (key, v) ∈ revs i →
      ∃ v', lookupA (mergeReviews (pagesFrom revs 0 k)) key = some v' := by
    intro i key v hi hm
    have hmem : (key, v) ∈ (List.flatten (pagesFrom revs 0 k)).reverse := by
      rw [List.mem_reverse, List.mem_flatten]
      exact ⟨revs i, by rw [mem_pagesFrom]; exact ⟨i, hi, by rw [Nat.zero_add]⟩, hm⟩
    obtain ⟨v', hv⟩ := mem_lookupA_isSome hmem
    exact ⟨v', by rw [mergeReviews_lookup]; exact hv⟩
  have hok0 : parse_reviews s (pages 0) = .ok (res 0) := hok 0 (Nat.zero_le _)
  have hrev0 : lookupA (res 0) "reviews" = some (.vDict (revs 0)) := hrev 0 (Nat.zero_le _)
  match k, hne, hempty, hfuel with
  | 0, hne, hempty, hfuel =>
      match fuel, hfuel with
      | fuel + 1, _ =>
        refine ⟨setReviews { u with attrs := setAttrs u.attrs (res 0) }
          (mergeReviews (pagesFrom revs 0 0)), ?_, setReviews_lookup _ _, hun1, hun2⟩
        rw [load_reviews]
        simp only [load_reviews_go, hok0, hrev0, hempty]
        rfl
  | k' + 1, hne, hempty, hfuel =>
      match fuel, hfuel with
      | fuel + 1, hfuel =>
        have hne0 : ¬ (revs 0).length = 0 := hne 0 (Nat.succ_pos _)
        have harith : ∀ i : Nat, 1 + i = i + 1 := fun i => Nat.add_comm 1 i
        have step := load_reviews_go_spec s pages res revs k' 1 [revs 0]
          { u with attrs := setAttrs u.attrs (res 0) } 1 fuel (Nat.le_refl 1) (by omega)
          (fun i hi => by rw [harith i]; exact hok (i + 1) (by omega))
          (fun i hi => by rw [harith i]; exact hrev (i + 1) (by omega))
          (fun i hi => by rw [harith i]; exact hne (i + 1) (by omega))
          (by rw [harith k']; exact hempty)
        refine ⟨setReviews { u with attrs := setAttrs u.attrs (res 0) }
          (mergeReviews (pagesFrom revs 0 (k' + 1))), ?_, setReviews_lookup _ _, hun1, hun2⟩
        rw [load_reviews]
        simp only [load_reviews_go, hok0, hrev0, if_neg hne0, Nat.zero_add,
                   List.nil_append, if_true]
        rw [step, show 1 + k' + 1 = k' + 1 + 1 by omega]
        rfl

/-- C2 witness: against a stub accessor with two non-empty review pages then
an empty one, load_reviews issues exactly 3 fetches and the merged mapping
covers the entries of pages 0 and 1. -/
theorem C2_witness :
    ∃ u', load_reviews true demoPages 10 demoUser = .ok (some (u', 3)) ∧
      lookupA u'.attrs "reviews" = some (.vDict (mergeReviews (pagesFrom demoRevs 0 2))) ∧
      (∀ key v, lookupA (mergeReviews (pagesFrom demoRevs 0 2)) key = some v →
        ∃ i, i < 2 ∧ (key, v) ∈ demoRevs i) ∧
      (∀ i key v, i < 2 → (key, v) ∈ demoRevs i →
        ∃ v', lookupA (mergeReviews (pagesFrom demoRevs 0 2)) key = some v') := by
  refine C2_load_reviews_pagination true demoPages demoRes demoRevs demoUser 2 10
    ?_ ?_ ?_ rfl (by omega)
  · intro i hi
    match i, hi with
    | 0, _ => rfl
    | 1, _ => rfl
    | 2, _ => rfl
  · intro i hi
    match i, hi with
    | 0, _ => rfl
    | 1, _ => rfl
    | 2, _ => rfl
  · intro i hi
    match i, hi with
    | 0, _ => decide
    | 1, _ => decide

/-- C3: in permissive mode, parsing a profile document whose statistics
section is absent leaves anime_stats and manga_stats unset (no sentinel
value), populates join_date and location from the sidebar of the same
document, and does not raise. -/
theorem C3_missing_stats_permissive (p : ProfilePage) (jd : Value) (loc : String)
    (h404 : p.sidebar.error404 = false) (hup : p.sidebar.userProfile = true)
    (hus : p.sidebar.userStatus = true) (hweb : optOk p.sidebar.website = true)
    (hjd : p.sidebar.joinDate = some (.ok jd))
    (hloc : p.sidebar.location = some (.ok loc))
    (hstats : p.statistics = none) :
    ∃ m, parse true p = .ok m ∧
      lookupA m "anime_stats" = none ∧ lookupA m "manga_stats" = none ∧
      lookupA m "join_date" = some jd ∧ lookupA m "location" = some (.vStr loc) := by
  obtain ⟨ms, hms⟩ := parse_sidebar_perm_ok p.sidebar h404 hup hus hweb
  obtain ⟨m, hm⟩ := parse_perm_ok p ms hms
  obtain ⟨ms', hms', hpres, hstatsp, -⟩ := parse_ok_spec hm
  have hmse : ms' = ms := by
    rw [hms] at hms'
    cases hms'
    rfl
  subst hmse
  obtain ⟨-, -, -, -, hjd', hloc', hnone, -⟩ := parse_sidebar_ok_spec hms
  refine ⟨m, hm, ?_, ?_, ?_, ?_⟩
  · rw [(hstatsp hstats).1, hnone "anime_stats" (by decide)]
  · rw [(hstatsp hstats).2, hnone "manga_stats" (by decide)]
  · rw [hpres "join_date" (by decide)]
    exact hjd' jd hjd
  · rw [hpres "location" (by decide)]
    exact hloc' loc hloc

/-- C3 witness: the concrete no-statistics profile document for user
`satou`. -/
theorem C3_witness :
    ∃ m, parse true demoProfileNoStats = .ok m ∧
      lookupA m "anime_stats" = none ∧ lookupA m "manga_stats" = none ∧
      lookupA m "join_date" = some (.vDate 2) ∧
      lookupA m "location" = some (.vStr "here") :=
  C3_missing_stats_permissive demoProfileNoStats (.vDate 2) "here"
    rfl rfl rfl rfl rfl rfl rfl

/-- C4: in strict mode, a group load in which one field's fragment is
malformed (so the profile document is not clean) raises, and afterwards no
field of the group is set on the entity: the attribute state is exactly what
it was before the load. -/
theorem C4_strict_all_or_nothing (u : UserObj) (p : ProfilePage)
    (hbad : profileClean p = false) :
    (load u false p).1 = u ∧ (load u false p).2 ≠ none := by
  cases hp : parse false p with
  | error e =>
      rw [load, hp]
      exact ⟨rfl, by simp⟩
  | ok m =>
      exfalso
      obtain ⟨-, -, -, -, hclean⟩ := parse_ok_spec hp
      rw [hclean rfl] at hbad
      cases hbad

/-- C4 witness: the strict load of a profile whose about fragment is
malformed leaves the fresh entity untouched and reports an error. -/
theorem C4_witness :
    profileClean demoProfileBadAbout = false ∧
    (load demoUser false demoProfileBadAbout).1 = demoUser ∧
    (load demoUser false demoProfileBadAbout).2 ≠ none := by
  have h := C4_strict_all_or_nothing demoUser demoProfileBadAbout rfl
  exact ⟨rfl, h.1, h.2⟩

/-- C5: when the fetched page reports that the user does not exist, every
page-kind parser fails with InvalidUserError in both strict and permissive
modes; permissive field-level suppression never swallows it. -/
theorem C5_invalid_user_always_fatal (s : Bool)
    (pp : ProfilePage) (rp : ReviewsPage) (qp : RecommendationsPage)
    (cp : ClubsPage) (fp : FriendsPage)
    (h1 : pp.sidebar.error404 = true) (h2 : rp.sidebar.error404 = true)
    (h3 : qp.sidebar.error404 = true) (h4 : cp.sidebar.error404 = true)
    (h5 : fp.sidebar.error404 = true) :
    parse s pp = .error .invalidUser ∧
    parse_reviews s rp = .error .invalidUser ∧
    parse_recommendations s qp = .error .invalidUser ∧
    parse_clubs s cp = .error .invalidUser ∧
    parse_friends s fp = .error .invalidUser :=
  ⟨parse_error404 h1 s, parse_reviews_error404 h2 s,
   parse_recommendations_error404 h3 s, parse_clubs_error404 h4 s,
   parse_friends_error404 h5 s⟩

/-- C5 witness: the five demo pages of a deleted user all fail with
InvalidUserError, in permissive mode. -/
theorem C5_witness :
    parse true goneProfile = .error .invalidUser ∧
    parse_reviews true goneReviews = .error .invalidUser ∧
    parse_recommendations true goneRecommendations = .error .invalidUser ∧
    parse_clubs true goneClubs = .error .invalidUser ∧
    parse_friends true goneFriends = .error .invalidUser :=
  C5_invalid_user_always_fatal true goneProfile goneReviews goneRecommendations
    goneClubs goneFriends rfl rfl rfl rfl rfl

theorem lookupA_const_map {l : List String} {a : String} (h : a ∈ l) (v : Value) :
    lookupA (l.map (fun x => (x, v))) a = some v := by
  induction l with
  | nil => cases h
  | cons hd tl ih =>
      rw [List.map_cons, lookupA]
      by_cases h0 : hd = a
      · rw [if_pos h0]
      · rw [if_neg h0]
        rcases List.mem_cons.mp h with rfl | hm
        · exact absurd rfl h0
        · exact ih hm

/-- C6 (counterexample): against pages 0 and 1 that both carry an entry for
media key `media1`, the merged reviews mapping holds page 1's entry, not
page 0's: the later page's entry overwrote the earlier page's. -/
theorem C6_counterexample :
    ("media1", Value.vStr "first") ∈ (dupPages 0).reviews.entries ∧
    ("media1", Value.vStr "second") ∈ (dupPages 1).reviews.entries ∧
    (∃ u', load_reviews true dupPages 10 demoUser = .ok (some (u', 3)) ∧
      lookupA u'.attrs "reviews" = some (.vDict [("media1", .vStr "second")])) ∧
    some (Value.vDict [("media1", Value.vStr "second")])
      ≠ some (Value.vDict [("media1", Value.vStr "first")]) := by
  refine ⟨List.mem_singleton.mpr rfl, List.mem_singleton.mpr rfl, ⟨_, rfl, rfl⟩, ?_⟩
  simp

/-- C6 (amended): the merge step of load_reviews is last-write-wins: a key's
value in the merged mapping is its value in the reversed concatenation of
the per-page review dicts, so for a key occurring on several pages the entry
of the LATEST such page is kept. -/
theorem C6_amended_merge_last_write_wins (coll : List (List (String × Value)))
    (key : String) :
    lookupA (mergeReviews coll) key = lookupA (List.flatten coll).reverse key :=
  mergeReviews_lookup coll key

/-- C7 (counterexample): `set(mapping)` does overwrite an already-set
attribute without any force flag: after title has been set (as by a full
load), a later stub `set` of title replaces the value. -/
theorem C7_counterexample :
    lookupA (setAttrs (setAttrs [] [("title", Value.vStr "Fullmetal Alchemist")])
        [("title", Value.vStr "stub hint")]) "title" = some (Value.vStr "stub hint") ∧
    some (Value.vStr "stub hint") ≠ some (Value.vStr "Fullmetal Alchemist") := by
  exact ⟨rfl, by simp⟩

/-- C7 (amended): `set` merges its mapping with unconditional per-key
overwrite (last write wins): setting an attribute to `v0` and then to `v1`
leaves `v1`.  So a stub set of title followed by a full load yields the full
load's title, but a full load followed by a stub set yields the stub's
title. -/
theorem C7_amended_set_overwrites (st : AttrMap) (k : String) (v0 v1 : Value) :
    lookupA (setAttrs (setAttrs st [(k, v0)]) [(k, v1)]) k = some v1 := by
  rw [lookupA_setAttrs_single, if_pos rfl]

/-- C8: constructing a User with a non-unicode or empty username fails with
InvalidUserError; construction with a non-empty unicode username succeeds
with every attribute unset. -/
theorem C8_init_validation (s : String) (h : 0 < s.length) :
    User_init .nonUnicode = .error .invalidUser ∧
    User_init (.unicode "") = .error .invalidUser ∧
    ∃ u, User_init (.unicode s) = .ok u ∧ u.username = s ∧
      ∀ a, a ∈ userAttributes → lookupA u.attrs a = some Value.vNone := by
  refine ⟨rfl, rfl, ⟨{ username := s, attrs := initialAttrs }, ?_, rfl, ?_⟩⟩
  · rw [User_init, if_neg (by omega)]
  · intro a ha
    exact lookupA_const_map ha Value.vNone

/-- C8 witness: the username `satou`. -/
theorem C8_witness :
    0 < ("satou" : String).length ∧
    (User_init .nonUnicode = .error .invalidUser ∧
     User_init (.unicode "") = .error .invalidUser ∧
     ∃ u, User_init (.unicode "satou") = .ok u ∧ u.username = "satou" ∧
       ∀ a, a ∈ userAttributes → lookupA u.attrs a = some Value.vNone) :=
  ⟨by decide, C8_init_validation "satou" (by decide)⟩

/-- C9: every page-kind parser (parse, parse_reviews, parse_recommendations,
parse_clubs, parse_friends) first applies the shared sidebar sub-parser, so
any mapping it returns agrees with parse_sidebar's mapping of the same
document on every sidebar attribute. -/
theorem C9_parsers_include_sidebar :
    (∀ (s : Bool) (p : ProfilePage) (m : AttrMap), parse s p = .ok m →
      ∃ ms, parse_sidebar s p.sidebar = .ok ms ∧
        ∀ k, k ∈ sidebarKeys → lookupA m k = lookupA ms k) ∧
    (∀ (s : Bool) (p : ReviewsPage) (m : AttrMap), parse_reviews s p = .ok m →
      ∃ ms, parse_sidebar s p.sidebar = .ok ms ∧
        ∀ k, k ∈ sidebarKeys → lookupA m k = lookupA ms k) ∧
    (∀ (s : Bool) (p : RecommendationsPage) (m : AttrMap),
      parse_recommendations s p = .ok m →
      ∃ ms, parse_sidebar s p.sidebar = .ok ms ∧
        ∀ k, k ∈ sidebarKeys → lookupA m k = lookupA ms k) ∧
    (∀ (s : Bool) (p : ClubsPage) (m : AttrMap), parse_clubs s p = .ok m →
      ∃ ms, parse_sidebar s p.sidebar = .ok ms ∧
        ∀ k, k ∈ sidebarKeys → lookupA m k = lookupA ms k) ∧
    (∀ (s : Bool) (p : FriendsPage) (m : AttrMap), parse_friends s p = .ok m →
      ∃ ms, parse_sidebar s p.sidebar = .ok ms ∧
        ∀ k, k ∈ sidebarKeys → lookupA m k = lookupA ms k) := by
  refine ⟨?_, ?_, ?_, ?_, ?_⟩
  · intro s p m h
    obtain ⟨ms, h1, h2, -, -⟩ := parse_ok_spec h
    exact ⟨ms, h1, h2⟩
  · intro s p m h
    obtain ⟨ms, h1, h2, -⟩ := parse_reviews_ok_spec h
    exact ⟨ms, h1, h2⟩
  · intro s p m h
    exact parse_recommendations_ok_spec h
  · intro s p m h
    exact parse_clubs_ok_spec h
  · intro s p m h
    exact parse_friends_ok_spec h

/-- C9 witness: the profile parser on the concrete demo page agrees with the
sidebar sub-parser on every sidebar attribute. -/
theorem C9_witness :
    ∃ ms, parse_sidebar true demoProfileNoStats.sidebar = .ok ms ∧
      ∀ k, k ∈ sidebarKeys → lookupA demoParsed k = lookupA ms k :=
  C9_parsers_include_sidebar.1 true demoProfileNoStats demoParsed rfl

/-- C10: every mapping returned by parse_sidebar maps gender to a non-falsy
(neither None nor empty) value; when the Gender field is absent from the
page or parses to the empty string, the value is the string
`Not specified`. -/
theorem C10_gender_never_empty (s : Bool) (p : UserPage) (m : AttrMap)
    (h : parse_sidebar s p = .ok m) :
    ∃ g, lookupA m "gender" = some g ∧ isFalsy g = false ∧
      ((p.gender = none ∨ p.gender = some (.ok "")) → g = .vStr "Not specified") :=
  (parse_sidebar_ok_spec h).2.2.2.1

/-- C10 witness: on the concrete gender-less sidebar the returned mapping
holds the `Not specified` default. -/
theorem C10_witness :
    ∃ g, lookupA demoSidebarNGParsed "gender" = some g ∧ isFalsy g = false ∧
      ((demoSidebarNoGender.gender = none ∨
        demoSidebarNoGender.gender = some (.ok "")) → g = .vStr "Not specified") :=
  C10_gender_never_empty true demoSidebarNoGender demoSidebarNGParsed rfl

end PythonMal
